import Mathlib

/-!
Verification of the clairvoyance schema core (src/clairvoyance/graphql.py).

The Python source is shallowly embedded: classes become structures, mutating
methods become functions returning the updated value, raised exceptions become
the error case of an Except, and a Python function that can return None
despite its annotation returns an Option inside the Except.  JSON wire values
are modelled by the inductive types Wire (the nested kind/name/ofType chains
used for type references) and JVal (general introspection JSON values).
-/

namespace Clairvoyance

/-- Models TypeRef (graphql.py lines 162-208).  The Python constructor stores
six primary attributes; the derived attributes non_null, list and
non_null_item are recomputed from them and are given below as functions, so
structural equality over the six fields coincides with the Python eq
method, which compares the whole attribute dictionary.  The name attribute
holds a JSON value that is either a string or null, hence Option String. -/
structure TypeRef where
  name : Option String
  kind : String
  is_list : Bool
  is_list_item_nullable : Bool
  is_nullable : Bool
  is_input_object : Bool
deriving DecidableEq, Repr

/-- Derived attribute: self.non_null = not self.is_nullable. -/
def TypeRef.non_null (t : TypeRef) : Bool := !t.is_nullable

/-- Derived attribute: self.list = self.is_list. -/
def TypeRef.list (t : TypeRef) : Bool := t.is_list

/-- Derived attribute: self.non_null_item = not self.is_list_item_nullable. -/
def TypeRef.non_null_item (t : TypeRef) : Bool := !t.is_list_item_nullable

/-- The value produced by the Python default constructor TypeRef(). -/
def TypeRef.default : TypeRef :=
  ⟨some "", "", false, false, true, false⟩

/-- A GraphQL wire node for a type reference: either JSON null or an object
with the three keys kind, name and ofType.  Subscripting null raises a
TypeError in Python, which the decoder model surfaces as an error. -/
inductive Wire where
  | null : Wire
  | node (kind : String) (name : Option String) (ofType : Wire) : Wire
deriving DecidableEq, Repr

/-- Models TypeRef.to_json (graphql.py lines 193-208).  The innermost node is
built from the base kind and name, then wrapped by NON_NULL when
non_null_item holds, by LIST when list holds, and by NON_NULL when non_null
holds, in that order.  When is_input_object is set the Python method reads
self.ofType, an attribute that is never assigned, so the call raises
AttributeError. -/
def TypeRef.to_json (t : TypeRef) : Except String Wire :=
  let j := Wire.node t.kind t.name Wire.null
  let j := if t.non_null_item then Wire.node "NON_NULL" none j else j
  let j := if t.list then Wire.node "LIST" none j else j
  let j := if t.non_null then Wire.node "NON_NULL" none j else j
  if t.is_input_object then
    Except.error "AttributeError: TypeRef object has no attribute ofType"
  else
    Except.ok j

/-- Models field_or_arg_type_from_json (graphql.py lines 245-296).  The local
variable typ starts as Python None; the two-level NON_NULL branch is a bare
pass, so the function can fall through and return None, modelled as
Except.ok none.  Explicit raise statements become Except.error. -/
def field_or_arg_type_from_json (jso : Wire) : Except String (Option TypeRef) :=
  match jso with
  | Wire.null => Except.error "TypeError: NoneType object is not subscriptable"
  | Wire.node kind name ofType =>
    if kind ≠ "NON_NULL" ∧ kind ≠ "LIST" then
      Except.ok (some ⟨name, kind, false, false, true, false⟩)
    else
      match ofType with
      | Wire.null => Except.error "TypeError: NoneType object is not subscriptable"
      | Wire.node k1 n1 o1 =>
        match o1 with
        | Wire.null =>
          if kind = "NON_NULL" then
            Except.ok (some ⟨n1, k1, false, false, false, false⟩)
          else if kind = "LIST" then
            Except.ok (some ⟨n1, k1, true, false, true, false⟩)
          else if kind = "INPUT_OBJECT" then
            Except.ok (some ⟨n1, k1, false, false, true, true⟩)
          else
            Except.error "Unexpected type.kind"
        | Wire.node k2 n2 o2 =>
          match o2 with
          | Wire.null =>
            if kind = "NON_NULL" then
              Except.ok none
            else if kind = "LIST" then
              Except.ok (some ⟨n2, k2, true, false, true, false⟩)
            else
              Except.error "Unexpected type.kind"
          | Wire.node k3 n3 o3 =>
            match o3 with
            | Wire.null =>
              Except.ok (some ⟨n3, k3, true, false, false, false⟩)
            | Wire.node _ _ _ =>
              Except.error "Invalid field or arg (too many ofType)"

/-- True when the wire node has at least four levels of ofType nesting, that
is, node.ofType.ofType.ofType.ofType is present and non-null. -/
def hasOfTypeDepth4 : Wire → Bool
  | Wire.node _ _ (Wire.node _ _ (Wire.node _ _ (Wire.node _ _ (Wire.node _ _ _)))) => true
  | _ => false

/-- Models InputValue and its constructor (graphql.py lines 211-215).  After
assigning name and type, the constructor evaluates the unbound identifier
none for defaultValue, so every construction raises NameError. -/
structure InputValue where
  name : String
  type : TypeRef
deriving DecidableEq, Repr

/-- Models InputValue.__init__: typ or TypeRef() resolves a missing argument
to the default TypeRef, then the assignment self.defaultValue = none raises
NameError because the lowercase identifier none is undefined. -/
def InputValue.init (name : String) (typ : Option TypeRef) : Except String InputValue :=
  let t := typ.getD TypeRef.default
  let _iv : InputValue := ⟨name, t⟩
  Except.error "NameError: name none is not defined"

/-- Introspection JSON values.  Objects are insertion-ordered key/value
lists, mirroring Python dict literals; a type-reference subtree keeps its
Wire form via the jwire embedding. -/
inductive JVal where
  | jnull : JVal
  | jbool (b : Bool) : JVal
  | jstr (s : String) : JVal
  | jwire (w : Wire) : JVal
  | jarr (xs : List JVal) : JVal
  | jobj (kvs : List (String × JVal)) : JVal

/-- Key lookup in an object, mirroring Python dict subscripting; none models
a KeyError at the call site. -/
def lookupKey : List (String × JVal) → String → Option JVal
  | [], _ => none
  | (k', v) :: rest, k => if k' = k then some v else lookupKey rest k

/-- Reads a string value at a key, as Python jso[k] does when a string is
expected there. -/
def getStr (kvs : List (String × JVal)) (k : String) : Except String String :=
  match lookupKey kvs k with
  | some (JVal.jstr s) => Except.ok s
  | some _ => Except.error ("TypeError: expected a string at key " ++ k)
  | none => Except.error ("KeyError: " ++ k)

/-- Reads a type-reference wire node at a key. -/
def getWire (kvs : List (String × JVal)) (k : String) : Except String Wire :=
  match lookupKey kvs k with
  | some (JVal.jwire w) => Except.ok w
  | some _ => Except.error ("TypeError: expected a type node at key " ++ k)
  | none => Except.error ("KeyError: " ++ k)

/-- Reads an array value at a key. -/
def getArr (kvs : List (String × JVal)) (k : String) : Except String (List JVal) :=
  match lookupKey kvs k with
  | some (JVal.jarr xs) => Except.ok xs
  | some _ => Except.error ("TypeError: expected a list at key " ++ k)
  | none => Except.error ("KeyError: " ++ k)

/-- Models InputValue.to_json (graphql.py lines 220-226).  The nested
self.type.to_json call can raise, hence the Except. -/
def InputValue.to_json (iv : InputValue) : Except String JVal :=
  match iv.type.to_json with
  | Except.ok w =>
    Except.ok (JVal.jobj
      [("defaultValue", JVal.jnull), ("description", JVal.jnull),
       ("name", JVal.jstr iv.name), ("type", JVal.jwire w)])
  | Except.error e => Except.error e

/-- Models InputValue.from_json (graphql.py lines 228-242).  After decoding
name and type it subscripts jso at input_fields, a key the serializers never
emit, so that line normally raises KeyError; when the key is present each
entry would be parsed as a Field and discarded, after which the constructor
call raises NameError.  The discarded per-entry parse is elided here: it can
only change which exception is raised, never produce a value. -/
def InputValue.from_json (jso : List (String × JVal)) : Except String InputValue := do
  let name ← getStr jso "name"
  let w ← getWire jso "type"
  let topt ← field_or_arg_type_from_json w
  match lookupKey jso "input_fields" with
  | none => Except.error "KeyError: input_fields"
  | some _ => InputValue.init name topt

/-- Models Field (graphql.py lines 299-305). -/
structure Field where
  name : String
  type : TypeRef
  args : List InputValue
deriving DecidableEq, Repr

/-- Models Field.to_json (graphql.py lines 307-315): keys in the order of the
Python dict literal. -/
def Field.to_json (f : Field) : Except String JVal := do
  let args ← f.args.mapM InputValue.to_json
  let tw ← f.type.to_json
  Except.ok (JVal.jobj
    [("args", JVal.jarr args), ("deprecationReason", JVal.jnull),
     ("description", JVal.jnull), ("isDeprecated", JVal.jbool false),
     ("name", JVal.jstr f.name), ("type", JVal.jwire tw)])

/-- Models Field.from_json (graphql.py lines 317-326).  A decoded type of
None is replaced by the default TypeRef through typ or TypeRef(). -/
def Field.from_json (jso : List (String × JVal)) : Except String Field := do
  let name ← getStr jso "name"
  let w ← getWire jso "type"
  let topt ← field_or_arg_type_from_json w
  let argsv ← getArr jso "args"
  let args ← argsv.mapM (fun a =>
    match a with
    | JVal.jobj o => InputValue.from_json o
    | _ => Except.error "TypeError: argument entry is not an object")
  Except.ok ⟨name, topt.getD TypeRef.default, args⟩

/-- Models the Python class Type (graphql.py lines 329-333); named GType here
because Type is reserved in Lean. -/
structure GType where
  name : String
  kind : String
  fields : List Field
deriving DecidableEq, Repr

/-- The placeholder field appended by Type.to_json when the field list is
empty: Field("dummy") with its type then set to TypeRef("String", "SCALAR"). -/
def dummyField : Field :=
  ⟨"dummy", ⟨some "String", "SCALAR", false, false, true, false⟩, []⟩

/-- The six entries of the output dict literal in Type.to_json (graphql.py
lines 342-349), before the kind-dependent keys are added. -/
def gtypeBase (t : GType) : List (String × JVal) :=
  [("description", JVal.jnull), ("enumValues", JVal.jnull),
   ("interfaces", JVal.jarr []), ("kind", JVal.jstr t.kind),
   ("name", JVal.jstr t.name), ("possibleTypes", JVal.jnull)]

/-- Models Type.to_json (graphql.py lines 335-358).  An empty field list
first gets the dummy field appended, a mutation of the receiver returned
here as the second component.  OBJECT and INTERFACE then add the keys fields
(the serialized list) and inputFields (null); INPUT_OBJECT adds fields
(null) and inputFields (the serialized list); any other kind adds neither
key. -/
def GType.to_json (t : GType) : Except String (List (String × JVal) × GType) :=
  if t.kind = "OBJECT" ∨ t.kind = "INTERFACE" then
    match (if t.fields.isEmpty then [dummyField] else t.fields).mapM Field.to_json with
    | Except.ok fj =>
      Except.ok (gtypeBase t ++ [("fields", JVal.jarr fj), ("inputFields", JVal.jnull)],
        ⟨t.name, t.kind, if t.fields.isEmpty then [dummyField] else t.fields⟩)
    | Except.error e => Except.error e
  else if t.kind = "INPUT_OBJECT" then
    match (if t.fields.isEmpty then [dummyField] else t.fields).mapM Field.to_json with
    | Except.ok fj =>
      Except.ok (gtypeBase t ++ [("fields", JVal.jnull), ("inputFields", JVal.jarr fj)],
        ⟨t.name, t.kind, if t.fields.isEmpty then [dummyField] else t.fields⟩)
    | Except.error e => Except.error e
  else
    Except.ok (gtypeBase t, ⟨t.name, t.kind, if t.fields.isEmpty then [dummyField] else t.fields⟩)

/-- The field-list parse loop of Type.from_json (graphql.py lines 373-377):
entries whose name is the literal string dummy are skipped, every other
entry goes through Field.from_json. -/
def parseFields : List JVal → Except String (List Field)
  | [] => Except.ok []
  | x :: rest =>
    match x with
    | JVal.jobj fkvs =>
      match lookupKey fkvs "name" with
      | none => Except.error "KeyError: name"
      | some (JVal.jstr "dummy") => parseFields rest
      | some _ => do
        let f ← Field.from_json fkvs
        let fs ← parseFields rest
        Except.ok (f :: fs)
    | _ => Except.error "TypeError: field entry is not an object"

/-- Models Type.from_json (graphql.py lines 360-379).  OBJECT and INTERFACE
read the key fields, INPUT_OBJECT reads inputFields, every other kind reads
no field list at all. -/
def GType.from_json (jso : List (String × JVal)) : Except String GType := do
  let name ← getStr jso "name"
  let kind ← getStr jso "kind"
  if kind = "OBJECT" ∨ kind = "INTERFACE" ∨ kind = "INPUT_OBJECT" then
    let fkey := if kind = "OBJECT" ∨ kind = "INTERFACE" then "fields"
      else if kind = "INPUT_OBJECT" then "inputFields" else ""
    match lookupKey jso fkey with
    | some (JVal.jarr xs) => do
      let fields ← parseFields xs
      Except.ok ⟨name, kind, fields⟩
    | some _ => Except.error ("TypeError: expected a list at key " ++ fkey)
    | none => Except.error ("KeyError: " ++ fkey)
  else
    Except.ok ⟨name, kind, []⟩

/-- Models Schema (graphql.py lines 40-152).  The root bindings mirror the
entries stored in the internal _schema dict: a null or an object with a
single name key, hence Option String.  schemaTypes models the persistent
_schema types list that Schema.to_json appends into; types models the
insertion-ordered dict mapping type names to Type values. -/
structure Schema where
  queryType : Option String
  mutationType : Option String
  subscriptionType : Option String
  directives : List JVal
  schemaTypes : List JVal
  types : List (String × GType)

/-- Models Schema.add_type (graphql.py lines 84-88): insert only when no
type of that name is present. -/
def Schema.add_type (s : Schema) (name kind : String) : Schema :=
  if s.types.any (fun p => p.1 == name) then s
  else { s with types := s.types ++ [(name, ⟨name, kind, []⟩)] }

/-- Converts an optional root name to the stored JSON entry, a null or an
object with one name key. -/
def optName : Option String → JVal
  | none => JVal.jnull
  | some s => JVal.jobj [("name", JVal.jstr s)]

/-- A falsy optional string (Python None or the empty string) becomes None,
mirroring the truthiness tests in Schema.__init__. -/
def strOpt : Option String → Option String
  | some "" => none
  | x => x

/-- Models the from-scratch branch of Schema.__init__ (graphql.py lines
60-82): seeds the String and ID scalars, then registers each supplied root
operation name as an OBJECT type via add_type. -/
def Schema.init (queryType mutationType subscriptionType : Option String) : Schema :=
  let q := strOpt queryType
  let m := strOpt mutationType
  let su := strOpt subscriptionType
  let base : Schema :=
    { queryType := q, mutationType := m, subscriptionType := su,
      directives := [], schemaTypes := [],
      types := [("String", ⟨"String", "SCALAR", []⟩), ("ID", ⟨"ID", "SCALAR", []⟩)] }
  let base := match q with | some qn => base.add_type qn "OBJECT" | none => base
  let base := match m with | some mn => base.add_type mn "OBJECT" | none => base
  match su with | some sn => base.add_type sn "OBJECT" | none => base

/-- Models a discovery caller appending a Field onto schema.types[tname].fields,
the mutation pattern the schema graph exposes to the discovery strategy. -/
def Schema.append_field (s : Schema) (tname : String) (f : Field) : Schema :=
  { s with types := s.types.map (fun p =>
      if p.1 = tname then (p.1, ⟨p.2.name, p.2.kind, p.2.fields ++ [f]⟩) else p) }

/-- One pass of the while body of Schema.get_path_from_root (graphql.py lines
117-122): scan every type and every field in order, and whenever a field
type name equals the current target, prepend the field name to the path and
switch the target to the owning type name, continuing the same scan with the
updated target. -/
def sweepTypes (ts : List (String × GType)) (name : String) (path : List String) :
    String × List String :=
  ts.foldl (fun st p =>
      p.2.fields.foldl (fun st f =>
          if f.type.name = some st.1 then (p.2.name, f.name :: st.2) else st)
        st)
    (name, path)

/-- Fuel-indexed unfolding of the while loop of Schema.get_path_from_root:
none means the loop has not terminated within the given number of passes.
The source loop has no bound of its own, so a result of none for every fuel
models divergence. -/
def get_path_from_root_aux (roots : List String) (ts : List (String × GType)) :
    Nat → String → List String → Option (List String)
  | 0, _, _ => none
  | fuel + 1, name, path =>
    if roots.contains name then some (name :: path)
    else
      let st := sweepTypes ts name path
      get_path_from_root_aux roots ts fuel st.1 st.2

/-- Models Schema.get_path_from_root (graphql.py lines 99-127): an unknown
name raises; otherwise the backward search runs with the given fuel, and the
root name is prepended on success. -/
def Schema.get_path_from_root (s : Schema) (fuel : Nat) (name : String) :
    Except String (Option (List String)) :=
  if s.types.any (fun p => p.1 == name) then
    let roots := (List.filterMap id
      [s.queryType, s.mutationType, s.subscriptionType]).filter (fun r => r != "")
    Except.ok (get_path_from_root_aux roots s.types fuel name [])
  else
    Except.error ("Type " ++ name ++ " not in schema!")

/-- Models Schema.convert_path_to_document (graphql.py lines 136-152): the
loop pops trailing path elements around the FUZZ placeholder, then the head
is matched against the query, mutation and subscription roots in turn; each
comparison subscripts the stored root entry, so a null root reached by the
chain raises TypeError, and a head matching no root raises the unknown
operation error. -/
def Schema.convert_path_to_document (s : Schema) (path : List String) :
    Except String String :=
  match path with
  | [] => Except.error "IndexError: list index out of range"
  | root :: rest =>
    let doc := rest.foldr (fun f acc => f ++ " \x7b " ++ acc ++ " \x7d") "FUZZ"
    match s.queryType with
    | none => Except.error "TypeError: NoneType object is not subscriptable"
    | some q =>
      if root = q then Except.ok ("query \x7b " ++ doc ++ " \x7d")
      else
        match s.mutationType with
        | none => Except.error "TypeError: NoneType object is not subscriptable"
        | some m =>
          if root = m then Except.ok ("mutation \x7b " ++ doc ++ " \x7d")
          else
            match s.subscriptionType with
            | none => Except.error "TypeError: NoneType object is not subscriptable"
            | some su =>
              if root = su then Except.ok ("subscription \x7b " ++ doc ++ " \x7d")
              else Except.error "Unknown operation type"

/-- The serialization loop of Schema.to_json (graphql.py lines 93-94): each
type is serialized in order, each type value is replaced by its mutated
successor, and the wire objects are collected. -/
def serTypes : List (String × GType) → Except String (List JVal × List (String × GType))
  | [] => Except.ok ([], [])
  | (k, t) :: rest =>
    match GType.to_json t with
    | Except.error e => Except.error e
    | Except.ok (j, t') =>
      match serTypes rest with
      | Except.error e => Except.error e
      | Except.ok (js, rest') => Except.ok (JVal.jobj j :: js, (k, t') :: rest')

/-- Models Schema.to_json (graphql.py lines 90-97).  The document wraps the
internal _schema dict, and the serialized types are appended onto the
persistent schemaTypes list itself, so the mutation is visible in the
returned Schema.  The json.dumps call only renders the document as text and
is modelled by returning the structured document. -/
def Schema.to_json (s : Schema) : Except String (JVal × Schema) :=
  match serTypes s.types with
  | Except.error e => Except.error e
  | Except.ok (js, types') =>
    let newTypes := s.schemaTypes ++ js
    Except.ok (JVal.jobj [("data", JVal.jobj [("__schema", JVal.jobj
        [("directives", JVal.jarr s.directives),
         ("mutationType", optName s.mutationType),
         ("queryType", optName s.queryType),
         ("subscriptionType", optName s.subscriptionType),
         ("types", JVal.jarr newTypes)])])],
      { s with schemaTypes := newTypes, types := types' })

/-- Extracts the types array of a serialized introspection document. -/
def docTypes (d : JVal) : List JVal :=
  match d with
  | JVal.jobj kvs =>
    match lookupKey kvs "data" with
    | some (JVal.jobj kvs2) =>
      match lookupKey kvs2 "__schema" with
      | some (JVal.jobj kvs3) =>
        match lookupKey kvs3 "types" with
        | some (JVal.jarr xs) => xs
        | _ => []
      | _ => []
    | _ => []
  | _ => []

/-- The field list Type.to_json serializes: the dummy field alone when the
type has no fields, otherwise the real fields.  none when some field fails
to serialize. -/
def serializedFields (t : GType) : Option (List JVal) :=
  match (if t.fields.isEmpty then [dummyField] else t.fields).mapM Field.to_json with
  | Except.ok fj => some fj
  | Except.error _ => none

/-- The wire object Field.to_json produces for the dummy placeholder field.
Its type node is NON_NULL-wrapped because TypeRef.to_json applies the
non_null_item wrapper whenever is_list_item_nullable is false, list or not. -/
def dummyFieldJson : JVal :=
  JVal.jobj [("args", JVal.jarr []), ("deprecationReason", JVal.jnull),
    ("description", JVal.jnull), ("isDeprecated", JVal.jbool false),
    ("name", JVal.jstr "dummy"),
    ("type", JVal.jwire (Wire.node "NON_NULL" none
      (Wire.node "SCALAR" (some "String") Wire.null)))]

/-- The schema of claim C2: a fresh schema rooted at Query, with types TypeA
and TypeB added, a field a of type TypeA on Query and a field b of type
TypeB on TypeA. -/
def c2Schema : Schema :=
  ((((Schema.init (some "Query") none none).add_type "TypeA" "OBJECT").add_type
      "TypeB" "OBJECT").append_field
    "Query" ⟨"a", ⟨some "TypeA", "OBJECT", false, false, true, false⟩, []⟩).append_field
    "TypeA" ⟨"b", ⟨some "TypeB", "OBJECT", false, false, true, false⟩, []⟩

/-- The unreachable-target schema of claim C8: a fresh schema rooted at
Query; the seeded scalar String is a known type that no field produces. -/
def c8Schema : Schema := Schema.init (some "Query") none none

/-- The schema for the claim C10 witness: empty persistent types list and a
single SCALAR type. -/
def c10w : Schema := ⟨none, none, none, [], [], [("T", ⟨"T", "SCALAR", []⟩)]⟩

/-- The wire object of the single type of c10w. -/
def c10tObj : JVal := JVal.jobj (gtypeBase ⟨"T", "SCALAR", []⟩)

/-- The document produced by the first c10w.to_json call. -/
def c10d1 : JVal :=
  JVal.jobj [("data", JVal.jobj [("__schema", JVal.jobj
    [("directives", JVal.jarr []), ("mutationType", JVal.jnull),
     ("queryType", JVal.jnull), ("subscriptionType", JVal.jnull),
     ("types", JVal.jarr [c10tObj])])])]

/-- The schema state after the first c10w.to_json call: the wire object has
been appended to the persistent list and the type has its dummy field. -/
def c10s1 : Schema := ⟨none, none, none, [], [c10tObj], [("T", ⟨"T", "SCALAR", [dummyField]⟩)]⟩

/-- The document produced by the second to_json call: the types array now
holds the wire object twice. -/
def c10d2 : JVal :=
  JVal.jobj [("data", JVal.jobj [("__schema", JVal.jobj
    [("directives", JVal.jarr []), ("mutationType", JVal.jnull),
     ("queryType", JVal.jnull), ("subscriptionType", JVal.jnull),
     ("types", JVal.jarr [c10tObj, c10tObj])])])]

/-- The schema state after the second to_json call. -/
def c10s2 : Schema :=
  ⟨none, none, none, [], [c10tObj, c10tObj], [("T", ⟨"T", "SCALAR", [dummyField]⟩)]⟩

/-! Helper lemmas. -/

/-- Replacing an empty field list by the dummy singleton is a fixed point:
applying the empty-check a second time changes nothing, because the result
of the first application is never empty. -/
lemma dummified_ne_nil (l : List Field) :
    (if (if l.isEmpty then [dummyField] else l).isEmpty then [dummyField]
      else (if l.isEmpty then [dummyField] else l)) =
    (if l.isEmpty then [dummyField] else l) := by
  cases l <;> rfl

/-- Type serialization is stable: re-serializing the mutated type returned
by a successful GType.to_json call yields the same wire object and leaves
the type unchanged. -/
lemma gtype_to_json_stable (t : GType) (j : List (String × JVal)) (t' : GType)
    (h : GType.to_json t = Except.ok (j, t')) :
    GType.to_json t' = Except.ok (j, t') := by
  obtain ⟨nm, kd, fs⟩ := t
  by_cases h1 : kd = "OBJECT" ∨ kd = "INTERFACE"
  · unfold GType.to_json at h
    try dsimp only at h
    rw [if_pos h1] at h
    cases hm : (if fs.isEmpty then [dummyField] else fs).mapM Field.to_json with
    | error e => rw [hm] at h; exact absurd h (by simp)
    | ok fj =>
      rw [hm] at h
      injection h with h'
      injection h' with hj ht
      subst hj; subst ht
      unfold GType.to_json
      try dsimp only
      rw [if_pos h1, dummified_ne_nil fs, hm]
      rfl
  by_cases h2 : kd = "INPUT_OBJECT"
  · unfold GType.to_json at h
    try dsimp only at h
    rw [if_neg h1, if_pos h2] at h
    cases hm : (if fs.isEmpty then [dummyField] else fs).mapM Field.to_json with
    | error e => rw [hm] at h; exact absurd h (by simp)
    | ok fj =>
      rw [hm] at h
      injection h with h'
      injection h' with hj ht
      subst hj; subst ht
      unfold GType.to_json
      try dsimp only
      rw [if_neg h1, if_pos h2, dummified_ne_nil fs, hm]
      rfl
  · unfold GType.to_json at h
    try dsimp only at h
    rw [if_neg h1, if_neg h2] at h
    injection h with h'
    injection h' with hj ht
    subst hj; subst ht
    unfold GType.to_json
    try dsimp only
    rw [if_neg h1, if_neg h2, dummified_ne_nil fs]
    rfl

/-- The serialization loop of Schema.to_json is stable on the mutated type
list and produces one wire object per type. -/
lemma serTypes_ok (ts : List (String × GType)) (js : List JVal)
    (ts' : List (String × GType)) (h : serTypes ts = Except.ok (js, ts')) :
    serTypes ts' = Except.ok (js, ts') ∧ js.length = ts.length := by
  induction ts generalizing js ts' with
  | nil =>
    unfold serTypes at h
    injection h with h'
    injection h' with hjs hts
    subst hjs; subst hts
    exact ⟨rfl, rfl⟩
  | cons p rest ih =>
    obtain ⟨k, t⟩ := p
    unfold serTypes at h
    cases hg : GType.to_json t with
    | error e => rw [hg] at h; exact absurd h (by simp)
    | ok pj =>
      obtain ⟨j, t1⟩ := pj
      rw [hg] at h
      cases hr : serTypes rest with
      | error e => rw [hr] at h; exact absurd h (by simp)
      | ok pr =>
        obtain ⟨js0, rest0⟩ := pr
        rw [hr] at h
        injection h with h'
        injection h' with hjs hts
        subst hjs; subst hts
        obtain ⟨ihs, ihl⟩ := ih js0 rest0 hr
        have hg' := gtype_to_json_stable t j t1 hg
        constructor
        · unfold serTypes
          rw [hg', ihs]
        · simp [ihl]

/-! Claim theorems. -/

/-- Claim C1: the claimed round-trip decode(encode(ref)) == ref fails on the
code.  For the bare nullable reference TypeRef(name="T", kind="OBJECT") —
one of the five shapes the claim quantifies over — to_json wraps the base
node in NON_NULL (non_null_item is true because is_list_item_nullable
defaults to false even for non-lists), and decoding that wire value returns
a reference with is_nullable = false, which is not equal to the original. -/
theorem c1_bare_roundtrip_fails :
    TypeRef.to_json ⟨some "T", "OBJECT", false, false, true, false⟩ =
      Except.ok (Wire.node "NON_NULL" none (Wire.node "OBJECT" (some "T") Wire.null)) ∧
    field_or_arg_type_from_json
        (Wire.node "NON_NULL" none (Wire.node "OBJECT" (some "T") Wire.null)) =
      Except.ok (some ⟨some "T", "OBJECT", false, false, false, false⟩) ∧
    (⟨some "T", "OBJECT", false, false, false, false⟩ : TypeRef) ≠
      ⟨some "T", "OBJECT", false, false, true, false⟩ := by
  refine ⟨rfl, rfl, ?_⟩
  decide

/-- Claim C2: on the schema with Query.a : TypeA and TypeA.b : TypeB, the
path search for TypeB returns Query, a, b (for any fuel at least the three
loop passes the search needs), and converting that path yields the document
query then a then b around the FUZZ placeholder. -/
theorem c2_path_and_document :
    (∀ fuel : Nat,
      c2Schema.get_path_from_root (fuel + 3) "TypeB" =
        Except.ok (some ["Query", "a", "b"])) ∧
    c2Schema.convert_path_to_document ["Query", "a", "b"] =
      Except.ok "query \x7b a \x7b b \x7b FUZZ \x7d \x7d \x7d" := by
  refine ⟨fun fuel => ?_, rfl⟩
  rfl

/-- Claim C4: add_type is idempotent — a second add_type with the same name,
whatever kind it passes, leaves the schema exactly as after the first call. -/
theorem c4_add_type_idempotent (s : Schema) (name k1 k2 : String) :
    (s.add_type name k1).add_type name k2 = s.add_type name k1 := by
  unfold Schema.add_type
  by_cases h : s.types.any (fun p => p.1 == name)
  · simp [h]
  · simp [h, List.any_append]

/-- Claim C5 counterexample: a wire node whose ofType chain is four deep but
whose outer kind is a base kind (SCALAR) is decoded by the first branch of
field_or_arg_type_from_json without looking at ofType at all, returning a
TypeRef instead of raising, so the claim as stated is false. -/
theorem c5_counterexample :
    hasOfTypeDepth4
        (Wire.node "SCALAR" (some "x")
          (Wire.node "NON_NULL" none
            (Wire.node "LIST" none
              (Wire.node "NON_NULL" none
                (Wire.node "SCALAR" (some "x") Wire.null))))) = true ∧
    field_or_arg_type_from_json
        (Wire.node "SCALAR" (some "x")
          (Wire.node "NON_NULL" none
            (Wire.node "LIST" none
              (Wire.node "NON_NULL" none
                (Wire.node "SCALAR" (some "x") Wire.null))))) =
      Except.ok (some ⟨some "x", "SCALAR", false, false, true, false⟩) :=
  ⟨rfl, rfl⟩

/-- Claim C5 as amended: for every wire node whose outer kind is NON_NULL or
LIST and whose ofType.ofType.ofType.ofType is present and non-null,
field_or_arg_type_from_json raises the malformed-input error. -/
theorem c5_deep_nesting_error (k : String) (nm : Option String) (o : Wire)
    (hk : k = "NON_NULL" ∨ k = "LIST")
    (hd : hasOfTypeDepth4 (Wire.node k nm o) = true) :
    field_or_arg_type_from_json (Wire.node k nm o) =
      Except.error "Invalid field or arg (too many ofType)" := by
  cases o with
  | null => simp [hasOfTypeDepth4] at hd
  | node k1 n1 o1 =>
    cases o1 with
    | null => simp [hasOfTypeDepth4] at hd
    | node k2 n2 o2 =>
      cases o2 with
      | null => simp [hasOfTypeDepth4] at hd
      | node k3 n3 o3 =>
        cases o3 with
        | null => simp [hasOfTypeDepth4] at hd
        | node k4 n4 o4 =>
          rcases hk with h | h <;> subst h <;> rfl

/-- Witness for the amended claim C5 at a concrete four-deep NON_NULL node. -/
theorem c5_deep_nesting_error_witness :
    ("NON_NULL" = "NON_NULL" ∨ "NON_NULL" = "LIST") ∧
    hasOfTypeDepth4
        (Wire.node "NON_NULL" none
          (Wire.node "LIST" none
            (Wire.node "NON_NULL" none
              (Wire.node "LIST" none
                (Wire.node "SCALAR" (some "S") Wire.null))))) = true ∧
    field_or_arg_type_from_json
        (Wire.node "NON_NULL" none
          (Wire.node "LIST" none
            (Wire.node "NON_NULL" none
              (Wire.node "LIST" none
                (Wire.node "SCALAR" (some "S") Wire.null))))) =
      Except.error "Invalid field or arg (too many ofType)" :=
  ⟨Or.inl rfl, rfl, c5_deep_nesting_error "NON_NULL" none _ (Or.inl rfl) rfl⟩

/-- Claim C6: on the two-level chain NON_NULL(NON_NULL(base)) the decoder
hits the bare pass branch and falls through, silently returning Python None
(modelled Except.ok none) instead of signalling an error, contradicting the
specified malformed-input handling. -/
theorem c6_nonnull_nonnull_returns_none :
    field_or_arg_type_from_json
        (Wire.node "NON_NULL" none
          (Wire.node "NON_NULL" none
            (Wire.node "SCALAR" (some "String") Wire.null))) =
      Except.ok none := rfl

/-- Claim C8: the root-path search for the unreachable type String never
terminates — for every fuel bound the while loop makes no progress (the
sweep leaves the target and path unchanged) and no result is produced, so
the code hangs instead of surfacing an unreachable-target failure. -/
theorem c8_unreachable_no_termination :
    ∀ fuel : Nat,
      c8Schema.get_path_from_root fuel "String" = Except.ok none := by
  intro fuel
  show Except.ok (get_path_from_root_aux ["Query"] c8Schema.types fuel "String" []) =
    Except.ok none
  congr 1
  induction fuel with
  | zero => rfl
  | succ n ih => exact ih

/-- Claim C9: constructing an InputValue never succeeds — the constructor
body evaluates the undefined identifier none when assigning defaultValue, so
every construction raises NameError; the serialized defaultValue can
therefore never be observed. -/
theorem c9_constructor_raises (name : String) (typ : Option TypeRef) :
    InputValue.init name typ = Except.error "NameError: name none is not defined" :=
  rfl

/-- Claim C3: serializing a Type with an empty field list appends exactly
one dummy placeholder field (the mutated type carries it), a second
serialization of the mutated type appends nothing and returns the same
output, and deserializing the output skips the dummy entry, yielding a Type
with an empty field list again. -/
theorem c3_dummy_roundtrip (name kind : String) (out : List (String × JVal)) (t' : GType)
    (h : GType.to_json ⟨name, kind, []⟩ = Except.ok (out, t')) :
    t'.fields = [dummyField] ∧
    GType.to_json t' = Except.ok (out, t') ∧
    GType.from_json out = Except.ok ⟨name, kind, []⟩ := by
  by_cases h1 : kind = "OBJECT"
  · subst h1
    rw [show GType.to_json ⟨name, "OBJECT", []⟩ =
      Except.ok (gtypeBase ⟨name, "OBJECT", []⟩ ++
        [("fields", JVal.jarr [dummyFieldJson]), ("inputFields", JVal.jnull)],
        ⟨name, "OBJECT", [dummyField]⟩) from rfl] at h
    injection h with h'
    injection h' with hout ht
    subst hout; subst ht
    exact ⟨rfl, rfl, rfl⟩
  by_cases h2 : kind = "INTERFACE"
  · subst h2
    rw [show GType.to_json ⟨name, "INTERFACE", []⟩ =
      Except.ok (gtypeBase ⟨name, "INTERFACE", []⟩ ++
        [("fields", JVal.jarr [dummyFieldJson]), ("inputFields", JVal.jnull)],
        ⟨name, "INTERFACE", [dummyField]⟩) from rfl] at h
    injection h with h'
    injection h' with hout ht
    subst hout; subst ht
    exact ⟨rfl, rfl, rfl⟩
  by_cases h3 : kind = "INPUT_OBJECT"
  · subst h3
    rw [show GType.to_json ⟨name, "INPUT_OBJECT", []⟩ =
      Except.ok (gtypeBase ⟨name, "INPUT_OBJECT", []⟩ ++
        [("fields", JVal.jnull), ("inputFields", JVal.jarr [dummyFieldJson])],
        ⟨name, "INPUT_OBJECT", [dummyField]⟩) from rfl] at h
    injection h with h'
    injection h' with hout ht
    subst hout; subst ht
    exact ⟨rfl, rfl, rfl⟩
  · have hval : GType.to_json ⟨name, kind, []⟩ =
        Except.ok (gtypeBase ⟨name, kind, []⟩, ⟨name, kind, [dummyField]⟩) := by
      unfold GType.to_json
      rw [if_neg (by simp [h1, h2]), if_neg h3]
      rfl
    rw [hval] at h
    injection h with h'
    injection h' with hout ht
    subst hout; subst ht
    refine ⟨rfl, ?_, ?_⟩
    · unfold GType.to_json
      rw [if_neg (by simp [h1, h2]), if_neg h3]
      rfl
    · show (if kind = "OBJECT" ∨ kind = "INTERFACE" ∨ kind = "INPUT_OBJECT" then _
        else _ : Except String GType) = _
      rw [if_neg (by simp [h1, h2, h3])]

/-- Witness for claim C3 at the empty OBJECT type named Q. -/
theorem c3_dummy_roundtrip_witness :
    GType.to_json ⟨"Q", "OBJECT", []⟩ =
      Except.ok (gtypeBase ⟨"Q", "OBJECT", []⟩ ++
        [("fields", JVal.jarr [dummyFieldJson]), ("inputFields", JVal.jnull)],
        ⟨"Q", "OBJECT", [dummyField]⟩) ∧
    ((⟨"Q", "OBJECT", [dummyField]⟩ : GType).fields = [dummyField] ∧
     GType.to_json ⟨"Q", "OBJECT", [dummyField]⟩ =
       Except.ok (gtypeBase ⟨"Q", "OBJECT", []⟩ ++
         [("fields", JVal.jarr [dummyFieldJson]), ("inputFields", JVal.jnull)],
         ⟨"Q", "OBJECT", [dummyField]⟩) ∧
     GType.from_json (gtypeBase ⟨"Q", "OBJECT", []⟩ ++
         [("fields", JVal.jarr [dummyFieldJson]), ("inputFields", JVal.jnull)]) =
       Except.ok ⟨"Q", "OBJECT", []⟩) :=
  ⟨rfl, c3_dummy_roundtrip "Q" "OBJECT" _ _ rfl⟩

/-- Claim C7 as amended: Type.to_json dispatches field emission on kind —
OBJECT and INTERFACE emit the serialized field list under fields with
inputFields null, INPUT_OBJECT emits the list under inputFields with fields
null, and every other kind emits NEITHER key: both fields and inputFields
are absent from the output object rather than present with a null value. -/
theorem c7_field_emission_dispatch (t : GType) (out : List (String × JVal)) (t' : GType)
    (h : GType.to_json t = Except.ok (out, t')) :
    ((t.kind = "OBJECT" ∨ t.kind = "INTERFACE") →
      lookupKey out "inputFields" = some JVal.jnull ∧
      lookupKey out "fields" = (serializedFields t).map JVal.jarr) ∧
    (t.kind = "INPUT_OBJECT" →
      lookupKey out "fields" = some JVal.jnull ∧
      lookupKey out "inputFields" = (serializedFields t).map JVal.jarr) ∧
    (t.kind ≠ "OBJECT" → t.kind ≠ "INTERFACE" → t.kind ≠ "INPUT_OBJECT" →
      lookupKey out "fields" = none ∧ lookupKey out "inputFields" = none) := by
  obtain ⟨nm, kd, fs⟩ := t
  by_cases h1 : kd = "OBJECT" ∨ kd = "INTERFACE"
  · unfold GType.to_json at h
    try dsimp only at h ⊢
    rw [if_pos h1] at h
    cases hm : (if fs.isEmpty then [dummyField] else fs).mapM Field.to_json with
    | error e => rw [hm] at h; exact absurd h (by simp)
    | ok fj =>
      rw [hm] at h
      injection h with h'
      injection h' with hout ht
      subst hout
      refine ⟨fun _ => ⟨rfl, ?_⟩, fun hio => ?_, fun hno hni _ => ?_⟩
      · simp only [serializedFields]
        try dsimp only
        rw [hm]
        rfl
      · rcases h1 with h1 | h1 <;> rw [h1] at hio <;> exact absurd hio (by decide)
      · rcases h1 with h1 | h1
        · exact absurd h1 hno
        · exact absurd h1 hni
  by_cases h2 : kd = "INPUT_OBJECT"
  · unfold GType.to_json at h
    try dsimp only at h ⊢
    rw [if_neg h1, if_pos h2] at h
    cases hm : (if fs.isEmpty then [dummyField] else fs).mapM Field.to_json with
    | error e => rw [hm] at h; exact absurd h (by simp)
    | ok fj =>
      rw [hm] at h
      injection h with h'
      injection h' with hout ht
      subst hout
      refine ⟨fun ho => ?_, fun _ => ⟨rfl, ?_⟩, fun _ _ hni => absurd h2 hni⟩
      · rcases ho with ho | ho <;> rw [ho] at h2 <;> exact absurd h2 (by decide)
      · simp only [serializedFields]
        try dsimp only
        rw [hm]
        rfl
  · unfold GType.to_json at h
    try dsimp only at h ⊢
    rw [if_neg h1, if_neg h2] at h
    injection h with h'
    injection h' with hout ht
    subst hout
    exact ⟨fun ho => absurd ho h1, fun ho => absurd ho h2, fun _ _ _ => ⟨rfl, rfl⟩⟩

/-- Witness for the amended claim C7 at an empty ENUM type: its wire object
contains neither a fields key nor an inputFields key. -/
theorem c7_field_emission_dispatch_witness :
    GType.to_json ⟨"E", "ENUM", []⟩ =
      Except.ok (gtypeBase ⟨"E", "ENUM", []⟩, ⟨"E", "ENUM", [dummyField]⟩) ∧
    lookupKey (gtypeBase ⟨"E", "ENUM", []⟩) "fields" = none ∧
    lookupKey (gtypeBase ⟨"E", "ENUM", []⟩) "inputFields" = none := by
  have h := (c7_field_emission_dispatch ⟨"E", "ENUM", []⟩
    (gtypeBase ⟨"E", "ENUM", []⟩) ⟨"E", "ENUM", [dummyField]⟩ rfl).2.2
    (by decide) (by decide) (by decide)
  exact ⟨rfl, h.1, h.2⟩

/-- Claim C7 counterexample: the claim as stated asserts that for kinds
other than OBJECT, INTERFACE and INPUT_OBJECT the output contains both keys
fields and inputFields with value null; on an ENUM type the output contains
no fields key at all (and no inputFields key), so the claim is false. -/
theorem c7_counterexample :
    GType.to_json ⟨"E2", "ENUM", []⟩ =
      Except.ok (gtypeBase ⟨"E2", "ENUM", []⟩, ⟨"E2", "ENUM", [dummyField]⟩) ∧
    lookupKey (gtypeBase ⟨"E2", "ENUM", []⟩) "fields" = none ∧
    lookupKey (gtypeBase ⟨"E2", "ENUM", []⟩) "fields" ≠ some JVal.jnull ∧
    lookupKey (gtypeBase ⟨"E2", "ENUM", []⟩) "inputFields" = none := by
  refine ⟨rfl, rfl, ?_, rfl⟩
  intro hcontra
  have hno : (none : Option JVal) = some JVal.jnull := hcontra
  exact Option.noConfusion hno

/-- Claim C10: Schema.to_json appends the serialized types into the
persistent internal types list, so after a first successful call the stored
list is non-empty and the schema has changed, and a second call yields a
document whose types array is the first array twice over — serialization is
neither side-effect-free nor idempotent in its output. -/
theorem c10_to_json_accumulates (s : Schema)
    (h0 : s.schemaTypes = []) (hne : s.types ≠ [])
    (d1 d2 : JVal) (s1 s2 : Schema)
    (h1 : s.to_json = Except.ok (d1, s1)) (h2 : s1.to_json = Except.ok (d2, s2)) :
    s1.schemaTypes ≠ [] ∧ s1 ≠ s ∧
    docTypes d2 = docTypes d1 ++ docTypes d1 ∧
    docTypes d1 ≠ [] ∧ d2 ≠ d1 := by
  cases hs : serTypes s.types with
  | error e => unfold Schema.to_json at h1; rw [hs] at h1; exact absurd h1 (by simp)
  | ok p =>
    obtain ⟨js, ts'⟩ := p
    obtain ⟨hst, hlen⟩ := serTypes_ok s.types js ts' hs
    have hjsne : js ≠ [] := by
      intro hnil
      rw [hnil] at hlen
      exact hne (List.length_eq_zero.mp hlen.symm)
    unfold Schema.to_json at h1
    rw [hs] at h1
    injection h1 with h1'
    injection h1' with hd1 hs1
    subst hd1; subst hs1
    unfold Schema.to_json at h2
    try dsimp only at h2
    rw [hst] at h2
    injection h2 with h2'
    injection h2' with hd2 hs2
    subst hd2; subst hs2
    refine ⟨?_, ?_, ?_, ?_, ?_⟩
    · show s.schemaTypes ++ js ≠ []
      rw [h0]
      simpa using hjsne
    · intro he
      have hts : s.schemaTypes ++ js = s.schemaTypes := congrArg Schema.schemaTypes he
      have := congrArg List.length hts
      simp at this
      exact hjsne this
    · show (s.schemaTypes ++ js) ++ js = (s.schemaTypes ++ js) ++ (s.schemaTypes ++ js)
      rw [h0]
      simp
    · show s.schemaTypes ++ js ≠ []
      rw [h0]
      simpa using hjsne
    · intro he
      have hts : (s.schemaTypes ++ js) ++ js = s.schemaTypes ++ js := congrArg docTypes he
      have := congrArg List.length hts
      simp at this
      exact hjsne this

/-- Witness for claim C10: a schema with one SCALAR type; the first call
appends its wire object once, the second call appends it again, and the
second document lists it twice. -/
theorem c10_to_json_accumulates_witness :
    (c10w.schemaTypes = [] ∧ c10w.types ≠ []) ∧
    c10w.to_json = Except.ok (c10d1, c10s1) ∧
    c10s1.to_json = Except.ok (c10d2, c10s2) ∧
    (c10s1.schemaTypes ≠ [] ∧ c10s1 ≠ c10w ∧
     docTypes c10d2 = docTypes c10d1 ++ docTypes c10d1 ∧
     docTypes c10d1 ≠ [] ∧ c10d2 ≠ c10d1) := by
  refine ⟨⟨rfl, by decide⟩, rfl, rfl, ?_⟩
  exact c10_to_json_accumulates c10w rfl (by decide) c10d1 c10d2 c10s1 c10s2 rfl rfl

end Clairvoyance

